import Mathlib

/-!
# Verification of "the-pulse" news-mood pipeline

Shallow embedding of the ingestion-analysis-persistence pipeline of the
repository.  The repository contains several variants of the same pipeline
script; the definitions below are translated from:

* `src/unnamed/part_001` — the five-country mood script (referred to below as
  the *part_001 variant*): `fetchHeadlines`, `analyzeWithGemini` (retry
  backoff and response normalization), `run` (slot alignment, store merge,
  pruning), and the top-level `GEMINI_API_KEY` guard;
* `src/scripts/analyze-mood.cjs` — the eight-country variant (referred to as
  the *analyze-mood variant*): its `run` loop sets `process.exitCode = 1` on a
  per-entity failure and builds `finalData` with the opposite spread order;
* `src/scripts/fetch-google-corp-news.cjs` — the tech-news variant: its
  `fetchHeadlines` throws on a non-ok HTTP response;
* `src/src/App.tsx` — the frontend `normalizeCountryData`, whose `subTopics`
  projection strips leading `#` markers from legacy-shaped records.

JavaScript values are modelled as follows: a possibly-absent object property
is an `Option`; JavaScript string falsiness (`!s` true for a missing or empty
string) is `strFalsy`; array and object falsiness is `Option.isNone` (an empty
array is truthy in JavaScript).  Milliseconds and status codes are `Nat`.
-/

/-! ## Retry backoff (`analyzeWithGemini` catch block, part_001 lines 183-205,
fetch-google-corp-news.cjs lines 98-120; both blocks are textually identical) -/

/-- `String.prototype.includes` at the character-list level: does `pat` occur
as a contiguous substring of the second list? -/
def listContainsInfix (pat : List Char) : List Char → Bool
  | [] => pat.isEmpty
  | c :: rest => pat.isPrefixOf (c :: rest) || listContainsInfix pat rest

/-- `msg.includes(pat)` from JavaScript. -/
def msgIncludes (msg pat : String) : Bool :=
  listContainsInfix pat.data msg.data

/-- The rate-limit test of the catch block:
`error.message.includes('429') || error.message.includes('Quota') ||
error.message.includes('RESOURCE_EXHAUSTED')`. -/
def isRateLimitMsg (msg : String) : Bool :=
  msgIncludes msg "429" || msgIncludes msg "Quota" ||
    msgIncludes msg "RESOURCE_EXHAUSTED"

/-- Whitespace class for the `\s*` part of the `retryDelay` regex (the
space-like characters that can occur in the API error text). -/
def isWsChar (c : Char) : Bool :=
  c = ' ' || c = '\t' || c = '\n' || c = '\r'

/-- Decimal digits to a natural number, as `parseInt(_, 10)` on a digit run. -/
def digitsToNat (ds : List Char) : Nat :=
  ds.foldl (fun n c => n * 10 + (c.toNat - 48)) 0

/-- The literal key part of the regex `/"retryDelay":\s*"(\d+)s"/`. -/
def retryDelayKey : List Char := "\"retryDelay\":".data

/-- Try to match `/"retryDelay":\s*"(\d+)s"/` at the head of `l`; on success
return the captured number. -/
def matchRetryDelayAt (l : List Char) : Option Nat :=
  if retryDelayKey.isPrefixOf l then
    let rest := (l.drop retryDelayKey.length).dropWhile isWsChar
    match rest with
    | '"' :: r2 =>
      let ds := r2.takeWhile Char.isDigit
      match r2.dropWhile Char.isDigit with
      | 's' :: '"' :: _ => if ds.isEmpty then none else some (digitsToNat ds)
      | _ => none
    | _ => none
  else none

/-- `error.message.match(/"retryDelay":\s*"(\d+)s"/)`: scan left to right for
the first position where the pattern matches and return the captured
seconds value. -/
def findRetryDelay : List Char → Option Nat
  | [] => none
  | c :: rest =>
    match matchRetryDelayAt (c :: rest) with
    | some n => some n
    | none => findRetryDelay rest

/-- The wait (in milliseconds) computed by the catch block of
`analyzeWithGemini` before the next retry: for a rate-limit error with an
embedded `"retryDelay": "<n>s"` the wait is `(n + 5) * 1000`; for a rate-limit
error without one it is `70000`; for any other error it is `5000`. -/
def computeWaitTime (msg : String) : Nat :=
  if isRateLimitMsg msg then
    match findRetryDelay msg.data with
    | some n => (n + 5) * 1000
    | none => 70000
  else 5000

/-! ## Slot alignment (`run`, part_001 lines 224-241) -/

/-- The KST schedule hours of the part_001 `run`. -/
def scheduleHours : List Nat := [0, 8, 12, 16, 20]

/-- The slot-alignment loop of `run`:
`let alignedHour = scheduleHours[0]; for (const h of scheduleHours) if (kstHour >= h) alignedHour = h;`. -/
def alignedHour (kstHour : Nat) : Nat :=
  scheduleHours.foldl (fun acc h => if kstHour ≥ h then h else acc)
    (scheduleHours.headD 0)

/-- Modelled from the spec words for comparison: "select the greatest
[schedule hour] ≤ the current hour-of-day in that timezone (wrapping to the
first entry if the current hour precedes all of them)". -/
def alignedHourSpec (kstHour : Nat) : Nat :=
  match (scheduleHours.filter (fun h => h ≤ kstHour)).max? with
  | some m => m
  | none => scheduleHours.headD 0

/-- `nowKST.getUTCHours()` where `nowKST = nowUTC + 9h`: the hour-of-day in
the reporting timezone as a function of the UTC hour. -/
def kstHourOfUtc (utcHour : Nat) : Nat := (utcHour + 9) % 24

/-- C2: for the schedule `[0, 8, 12, 16, 20]`, the aligned hour computed at
the start of a run equals the greatest schedule hour less than or equal to
the current KST hour-of-day (falling back to the first entry when the hour
precedes all of them); in particular 13:47 aligns to 12, 23:10 to 20 and
00:00 to 0. -/
theorem alignedHour_greatest_schedule_slot :
    (∀ kh : Fin 24, alignedHour kh.val = alignedHourSpec kh.val) ∧
    (∀ u : Fin 24, kstHourOfUtc u.val < 24) ∧
    alignedHour 13 = 12 ∧ alignedHour 23 = 20 ∧ alignedHour 0 = 0 := by
  refine ⟨by decide, by decide, by decide, by decide, by decide⟩

/-- C1: the wait computed by `analyzeWithGemini` before the next retry is
`(n + 5)` seconds (`(n + 5) * 1000` ms) for a rate-limit error embedding
`"retryDelay": "<n>s"`, 70 seconds for a rate-limit error without an embedded
delay, and 5 seconds for a non-rate-limit error; concretely, an error text
carrying 429 and `"retryDelay": "37s"` yields a 42-second wait. -/
theorem computeWaitTime_backoff (msg : String) (n : Nat) :
    (isRateLimitMsg msg = true → findRetryDelay msg.data = some n →
      computeWaitTime msg = (n + 5) * 1000) ∧
    (isRateLimitMsg msg = true → findRetryDelay msg.data = none →
      computeWaitTime msg = 70000) ∧
    (isRateLimitMsg msg = false → computeWaitTime msg = 5000) ∧
    computeWaitTime "Gemini API Error: 429 - RESOURCE_EXHAUSTED, \"retryDelay\": \"37s\"" = 42000 ∧
    computeWaitTime "Gemini API Error: 429 - rate limit exceeded" = 70000 ∧
    computeWaitTime "Gemini API Error: 500 - internal" = 5000 := by
  refine ⟨fun h1 h2 => ?_, fun h1 h2 => ?_, fun h1 => ?_, by decide, by decide, by decide⟩
  · simp [computeWaitTime, h1, h2]
  · simp [computeWaitTime, h1, h2]
  · simp [computeWaitTime, h1]

/-- Witness for C1 at a concrete rate-limited message embedding a 37-second
server-suggested delay. -/
theorem computeWaitTime_backoff_witness :
    computeWaitTime "429 \"retryDelay\": \"37s\"" = (37 + 5) * 1000 :=
  (computeWaitTime_backoff "429 \"retryDelay\": \"37s\"" 37).1
    (by decide) (by decide)

/-! ## Store, merge and pruning (`run`, part_001 lines 213-222 and 254-302;
analyze-mood.cjs lines 110-183) -/

/-- The combined `mood.json` store: a JavaScript object keyed by entity id,
modelled as a partial map. -/
def Store (V : Type) : Type := String → Option V

/-- The empty store (`existingMoodData = {}` when `mood.json` is absent or
unreadable). -/
def emptyStore {V : Type} : Store V := fun _ => none

/-- `results[code] = finalData`: JavaScript property assignment. -/
def setStore {V : Type} (st : Store V) (k : String) (v : V) : Store V :=
  fun q => if q = k then some v else st q

/-- The pruning pass of part_001 `run` (lines 293-300): delete every key of
`results` that is not in `trackedCodes`. -/
def pruneStore {V : Type} (st : Store V) (tracked : List String) : Store V :=
  fun q => if q ∈ tracked then st q else none

/-- The entity loop of `run` as it acts on `results`: starting from a copy of
the existing store, process the tracked ids in order and assign
`results[code]` exactly when this run produced an update for `code`
(`update code = some v`); a skipped or failed entity leaves `results`
untouched. -/
def runLoop {V : Type} (update : String → Option V) (tracked : List String)
    (st : Store V) : Store V :=
  tracked.foldl
    (fun acc code =>
      match update code with
      | some v => setStore acc code v
      | none => acc)
    st

/-- The store written to `mood.json` by the part_001 `run`: the entity loop
over a copy of the existing store, followed by the pruning pass. -/
def mergeStore {V : Type} (existing : Store V) (update : String → Option V)
    (tracked : List String) : Store V :=
  pruneStore (runLoop update tracked existing) tracked

/-- Per-entity update outcome inside the loop: headlines are fetched first
(`fetchHeadlines`), an empty headline list causes `continue`, and otherwise
`analyzeWithGemini` either produces a record or throws after retries. -/
def updateOf {V : Type} (headlines : String → List String)
    (analyze : String → Option V) : String → Option V :=
  fun code => if (headlines code).isEmpty then none else analyze code

/-- One iteration of the analyze-mood.cjs entity loop acting on the pair
(results, process.exitCode): a failed analysis sets the exit code to 1
(line 177) and leaves the store untouched; a skip leaves both untouched. -/
def amStep {V : Type} (headlines : String → List String)
    (analyze : String → Option V) (acc : Store V × Nat) (code : String) :
    Store V × Nat :=
  if (headlines code).isEmpty then acc
  else
    match analyze code with
    | some v => (setStore acc.1 code v, acc.2)
    | none => (acc.1, 1)

/-- The analyze-mood.cjs `run`: fold the entity loop over the tracked ids
starting from a copy of the existing store and exit code 0; the resulting
store is written to `mood.json` unconditionally (line 182, no pruning pass in
this variant) and the resulting exit code is the process exit code. -/
def runAnalyzeMood {V : Type} (existing : Store V) (tracked : List String)
    (headlines : String → List String) (analyze : String → Option V) :
    Store V × Nat :=
  tracked.foldl (amStep headlines analyze) (existing, 0)

/-- The part_001 `run`: the merged-and-pruned store is written to `mood.json`
unconditionally (line 302), and no per-entity failure touches the process
exit code — the catch block at lines 287-290 only logs, so the entity loop
always leaves the process exiting with code 0. -/
def runPart001 {V : Type} (existing : Store V) (tracked : List String)
    (headlines : String → List String) (analyze : String → Option V) :
    Store V × Nat :=
  (mergeStore existing (updateOf headlines analyze) tracked, 0)

/-- An entity "fails this run" when its feed yielded headlines but
`analyzeWithGemini` threw after exhausting retries. -/
def entityFails {V : Type} (headlines : String → List String)
    (analyze : String → Option V) (code : String) : Bool :=
  !(headlines code).isEmpty && (analyze code).isNone

theorem setStore_self {V : Type} (st : Store V) (k : String) (v : V) :
    setStore st k v k = some v := by
  simp [setStore]

theorem setStore_other {V : Type} (st : Store V) (k q : String) (v : V)
    (h : q ≠ k) : setStore st k v q = st q := by
  simp [setStore, h]

theorem runLoop_of_update_none {V : Type} (update : String → Option V)
    (tracked : List String) (st : Store V) (k : String)
    (h : update k = none) : runLoop update tracked st k = st k := by
  induction tracked generalizing st with
  | nil => rfl
  | cons c rest ih =>
    show runLoop update rest _ k = st k
    cases hc : update c with
    | none => simpa [hc] using ih st
    | some v =>
      simp only [hc]
      rw [ih (setStore st c v)]
      by_cases hk : k = c
      · subst hk; rw [h] at hc; exact absurd hc (by simp)
      · exact setStore_other st c k v hk

theorem runLoop_not_mem {V : Type} (update : String → Option V)
    (tracked : List String) (st : Store V) (k : String)
    (h : k ∉ tracked) : runLoop update tracked st k = st k := by
  induction tracked generalizing st with
  | nil => rfl
  | cons c rest ih =>
    have hkc : k ≠ c := fun hkc => h (hkc ▸ List.mem_cons_self c rest)
    have hkr : k ∉ rest := fun hkr => h (List.mem_cons_of_mem c hkr)
    show runLoop update rest _ k = st k
    cases hc : update c with
    | none => simpa [hc] using ih st hkr
    | some v =>
      simp only [hc]
      rw [ih (setStore st c v) hkr]
      exact setStore_other st c k v hkc

theorem runLoop_of_update_some {V : Type} (update : String → Option V)
    (tracked : List String) (st : Store V) (k : String) (v : V)
    (h : update k = some v) (hm : k ∈ tracked) :
    runLoop update tracked st k = some v := by
  induction tracked generalizing st with
  | nil => cases hm
  | cons c rest ih =>
    show runLoop update rest _ k = some v
    by_cases hkr : k ∈ rest
    · cases hc : update c with
      | none => simpa [hc] using ih st hkr
      | some w =>
        simp only [hc]
        exact ih (setStore st c w) hkr
    · have hkc : k = c := by
        rcases List.mem_cons.mp hm with h1 | h1
        · exact h1
        · exact absurd h1 hkr
      subst hkc
      simp only [h]
      rw [runLoop_not_mem update rest (setStore st k v) k hkr]
      exact setStore_self st k v

theorem pruneStore_of_mem {V : Type} (st : Store V) (tracked : List String)
    (k : String) (h : k ∈ tracked) : pruneStore st tracked k = st k := by
  simp [pruneStore, h]

theorem pruneStore_of_not_mem {V : Type} (st : Store V)
    (tracked : List String) (k : String) (h : k ∉ tracked) :
    pruneStore st tracked k = none := by
  simp [pruneStore, h]

/-- A concrete existing store with entries for ids A and B. -/
def exStoreAB : Store Nat := setStore (setStore emptyStore "A" 1) "B" 2

/-- A concrete per-run update set touching only id A. -/
def exUpdateA : String → Option Nat := fun k => if k = "A" then some 10 else none

/-- A concrete existing store with entries for ids A, B and C. -/
def exStoreABC : Store Nat :=
  setStore (setStore (setStore emptyStore "A" 1) "B" 2) "C" 3

/-- The store written by a run over `exStoreABC` with tracked ids A, B and no
updates. -/
def mergeStoreABC : Store Nat := mergeStore exStoreABC (fun _ => none) ["A", "B"]

/-- C3: in the store written by `run`, each tracked id that received an update
this run maps to its new record, and each tracked id that received no update
maps to its existing entry unchanged (absent if it had no prior entry). -/
theorem mergeStore_preserves {V : Type} (existing : Store V)
    (update : String → Option V) (tracked : List String) (k : String)
    (hk : k ∈ tracked) :
    (∀ v, update k = some v → mergeStore existing update tracked k = some v) ∧
    (update k = none → mergeStore existing update tracked k = existing k) := by
  constructor
  · intro v hv
    rw [mergeStore, pruneStore_of_mem _ _ _ hk]
    exact runLoop_of_update_some update tracked existing k v hv hk
  · intro hn
    rw [mergeStore, pruneStore_of_mem _ _ _ hk]
    exact runLoop_of_update_none update tracked existing k hn

/-- Witness for C3: with existing store {A ↦ 1, B ↦ 2}, tracked ids [A, B]
and an update only for A, the merged store maps A to the new record and B to
its existing record. -/
theorem mergeStore_preserves_witness :
    mergeStore exStoreAB exUpdateA ["A", "B"] "A" = some 10 ∧
    mergeStore exStoreAB exUpdateA ["A", "B"] "B" = exStoreAB "B" :=
  ⟨(mergeStore_preserves exStoreAB exUpdateA ["A", "B"] "A"
      (by decide)).1 10 (by decide),
   (mergeStore_preserves exStoreAB exUpdateA ["A", "B"] "B"
      (by decide)).2 (by decide)⟩

/-- C5 counterexample: with an empty existing store, tracked id set {A} and no
update for A this run, the written store has no entry for A, so its key set
(empty) is not equal to the tracked entity set — the claimed equality fails;
only the subset direction holds. -/
theorem mergeStore_keyset_counterexample :
    mergeStore (emptyStore : Store Nat) (fun _ => none) ["A"] "A" = none ∧
    "A" ∈ ["A"] := by
  exact ⟨by decide, by decide⟩

/-- C5 (amended): every key absent from the tracked-entity configuration is
removed before the final write, so the written store's key set is always a
subset of the tracked set (a tracked id with neither a prior entry nor an
update this run stays absent); in particular, for an existing store {A, B, C}
and tracked ids {A, B}, the written store's key set is exactly {A, B}. -/
theorem mergeStore_prunes_untracked {V : Type} (existing : Store V)
    (update : String → Option V) (tracked : List String) (k : String) :
    (k ∉ tracked → mergeStore existing update tracked k = none) ∧
    mergeStoreABC "A" = some 1 ∧ mergeStoreABC "B" = some 2 ∧
    (∀ q, q ≠ "A" → q ≠ "B" → mergeStoreABC q = none) := by
  refine ⟨fun hk => ?_, by decide, by decide, fun q h1 h2 => ?_⟩
  · rw [mergeStore]
    exact pruneStore_of_not_mem _ _ _ hk
  · rw [mergeStoreABC, mergeStore]
    apply pruneStore_of_not_mem
    simp [h1, h2]

/-- Witness for C5 (amended): the untracked id C is pruned from the written
store, and an id other than A and B has no entry in the concrete merged
store. -/
theorem mergeStore_prunes_untracked_witness :
    mergeStore exStoreABC (fun _ => none) ["A", "B"] "C" = none ∧
    mergeStoreABC "Z" = none :=
  ⟨(mergeStore_prunes_untracked exStoreABC (fun _ => none) ["A", "B"]
      "C").1 (by decide),
   (mergeStore_prunes_untracked exStoreABC (fun _ => none) ["A", "B"]
      "C").2.2.2 "Z" (by decide) (by decide)⟩

theorem amFold_snd {V : Type} (headlines : String → List String)
    (analyze : String → Option V) (tracked : List String) (st : Store V)
    (e : Nat) :
    (tracked.foldl (amStep headlines analyze) (st, e)).2 =
      if tracked.any (entityFails headlines analyze) then 1 else e := by
  induction tracked generalizing st e with
  | nil => simp
  | cons c rest ih =>
    simp only [List.foldl_cons, List.any_cons]
    by_cases hc : (headlines c).isEmpty
    · rw [show amStep headlines analyze (st, e) c = (st, e) by
        simp [amStep, hc]]
      rw [ih st e]
      simp only [show entityFails headlines analyze c = false by
        simp [entityFails, hc], Bool.false_or]
    · cases ha : analyze c with
      | some v =>
        rw [show amStep headlines analyze (st, e) c = (setStore st c v, e) by
          simp [amStep, hc, ha]]
        rw [ih _ e]
        simp only [show entityFails headlines analyze c = false by
          simp [entityFails, hc, ha], Bool.false_or]
      | none =>
        rw [show amStep headlines analyze (st, e) c = (st, 1) by
          simp [amStep, hc, ha]]
        rw [ih st 1]
        simp only [show entityFails headlines analyze c = true by
          simp [entityFails, hc, ha], Bool.true_or, if_pos rfl]
        simp

theorem runLoop_cons {V : Type} (update : String → Option V) (c : String)
    (rest : List String) (st : Store V) :
    runLoop update (c :: rest) st =
      runLoop update rest
        (match update c with
          | some v => setStore st c v
          | none => st) := rfl

theorem amFold_fst {V : Type} (headlines : String → List String)
    (analyze : String → Option V) (tracked : List String) (st : Store V)
    (e : Nat) :
    (tracked.foldl (amStep headlines analyze) (st, e)).1 =
      runLoop (updateOf headlines analyze) tracked st := by
  induction tracked generalizing st e with
  | nil => rfl
  | cons c rest ih =>
    simp only [List.foldl_cons, runLoop_cons]
    by_cases hc : (headlines c).isEmpty
    · rw [show amStep headlines analyze (st, e) c = (st, e) by
        simp [amStep, hc]]
      rw [ih st e]
      rw [show (match updateOf headlines analyze c with
            | some v => setStore st c v
            | none => st) = st by simp [updateOf, hc]]
    · cases ha : analyze c with
      | some v =>
        rw [show amStep headlines analyze (st, e) c = (setStore st c v, e) by
          simp [amStep, hc, ha]]
        rw [ih _ e]
        rw [show (match updateOf headlines analyze c with
              | some v => setStore st c v
              | none => st) = setStore st c v by simp [updateOf, hc, ha]]
      | none =>
        rw [show amStep headlines analyze (st, e) c = (st, 1) by
          simp [amStep, hc, ha]]
        rw [ih st 1]
        rw [show (match updateOf headlines analyze c with
              | some v => setStore st c v
              | none => st) = st by simp [updateOf, hc, ha]]

/-- C6 counterexample: in the part_001 variant an entity fails this run (its
feed yielded a headline, its analysis failed) and yet the entity loop leaves
the process exit code at 0 — the claimed non-zero exit code does not happen. -/
theorem runExitCode_counterexample :
    entityFails (fun _ => ["h"]) (fun _ => (none : Option Nat)) "A" = true ∧
    (runPart001 (emptyStore : Store Nat) ["A"] (fun _ => ["h"])
      (fun _ => none)).2 = 0 := by
  exact ⟨rfl, rfl⟩

/-- C6 (amended): in the analyze-mood variant the process exit code is
non-zero (namely 1) exactly when some tracked entity with a non-empty
headline fetch fails analysis, and the combined store is still written (it
equals the entity loop's merge of the existing store with the successful
updates); in the part_001 variant the combined store is likewise still
written (merged and pruned) but the entity loop always leaves the process
exit code at 0, even when an entity fails. -/
theorem runExitCode_behavior {V : Type} (existing : Store V)
    (tracked : List String) (headlines : String → List String)
    (analyze : String → Option V) :
    ((runAnalyzeMood existing tracked headlines analyze).2 =
      if tracked.any (entityFails headlines analyze) then 1 else 0) ∧
    ((runAnalyzeMood existing tracked headlines analyze).1 =
      runLoop (updateOf headlines analyze) tracked existing) ∧
    (runPart001 existing tracked headlines analyze).2 = 0 ∧
    (runPart001 existing tracked headlines analyze).1 =
      mergeStore existing (updateOf headlines analyze) tracked :=
  ⟨amFold_snd headlines analyze tracked existing 0,
   amFold_fst headlines analyze tracked existing 0, rfl, rfl⟩

/-! ## Missing-credential guard (part_001 lines 308-311,
fetch-google-corp-news.cjs lines 156-159, analyze-mood.cjs lines 186-188) -/

/-- What the top level of a script does before any network activity:
`abortExit1` is `console.error(...); process.exit(1)` without invoking
`run()`; `runAfterWarn` is `console.warn(...)` followed by `run()` anyway;
`runNormally` is invoking `run()` with the key present. -/
inductive StartBehavior where
  | abortExit1
  | runAfterWarn
  | runNormally
deriving DecidableEq

/-- JavaScript falsiness of the `GEMINI_API_KEY` environment variable:
`!GEMINI_API_KEY` is true when the variable is unset or set to the empty
string. -/
def keyFalsy : Option String → Bool
  | none => true
  | some s => s.isEmpty

/-- part_001 top level: `if (!GEMINI_API_KEY) before process.exit(1)` runs
before `run()` is invoked. -/
def startPart001 (key : Option String) : StartBehavior :=
  if keyFalsy key then .abortExit1 else .runNormally

/-- fetch-google-corp-news.cjs top level: same guard as part_001. -/
def startFetchCorpNews (key : Option String) : StartBehavior :=
  if keyFalsy key then .abortExit1 else .runNormally

/-- analyze-mood.cjs top level: a missing key only produces a
`console.warn`, and `run()` is invoked regardless. -/
def startAnalyzeMood (key : Option String) : StartBehavior :=
  if keyFalsy key then .runAfterWarn else .runNormally

/-- C7 counterexample: with the API-key variable absent, the analyze-mood
variant does not abort — it warns and proceeds to `run()` (so feed fetches
happen and the missing credential only surfaces at the later API calls),
contradicting the claimed immediate fatal abort. -/
theorem missingKey_counterexample :
    startAnalyzeMood none = StartBehavior.runAfterWarn ∧
    startAnalyzeMood none ≠ StartBehavior.abortExit1 := by
  exact ⟨rfl, by decide⟩

/-- C7 (amended): when the `GEMINI_API_KEY` variable is absent (or empty),
the part_001 and fetch-google-corp-news scripts abort immediately with
`process.exit(1)` before any network activity, but the analyze-mood script
only warns and still invokes `run()`; with the key present all three run
normally. -/
theorem missingKey_behavior (key : Option String) :
    (keyFalsy key = true →
      startPart001 key = StartBehavior.abortExit1 ∧
      startFetchCorpNews key = StartBehavior.abortExit1 ∧
      startAnalyzeMood key = StartBehavior.runAfterWarn) ∧
    (keyFalsy key = false →
      startPart001 key = StartBehavior.runNormally ∧
      startFetchCorpNews key = StartBehavior.runNormally ∧
      startAnalyzeMood key = StartBehavior.runNormally) := by
  constructor <;> intro h <;>
    simp [startPart001, startFetchCorpNews, startAnalyzeMood, h]

/-- Witness for C7 (amended) with the key entirely absent. -/
theorem missingKey_behavior_witness :
    startPart001 none = StartBehavior.abortExit1 ∧
    startFetchCorpNews none = StartBehavior.abortExit1 ∧
    startAnalyzeMood none = StartBehavior.runAfterWarn :=
  (missingKey_behavior none).1 (by decide)

/-! ## Feed fetch (`fetchHeadlines`, part_001 lines 37-57 and
fetch-google-corp-news.cjs lines 33-39) -/

/-- The outcome of the HTTP fetch of a feed URL: a response with a status
code and body text, or a transport-level failure (the `fetch` promise
rejects). -/
inductive FetchResponse where
  | success (status : Nat) (body : String)
  | transportError

/-- `response.ok`: the HTTP status is in the 2xx range. -/
def responseOk (status : Nat) : Bool := 200 ≤ status && status < 300

/-- part_001 `fetchHeadlines`: the whole body is wrapped in try/catch, so a
transport error is caught, logged, and an empty list returned; the HTTP
status is never inspected, so a non-2xx response's body is parsed like any
other.  `extract` stands for the `<item>`/`<title>`/CDATA extraction applied
to the body text. -/
def fetchHeadlinesPart001 (extract : String → List String) :
    FetchResponse → List String
  | .transportError => []
  | .success _ body => extract body

/-- fetch-google-corp-news.cjs `fetchHeadlines`: a transport error
propagates to the caller, and a non-ok response throws
`HTTP error! status: ...`. -/
def fetchHeadlinesCorpNews (extract : String → List String) :
    FetchResponse → Except String (List String)
  | .transportError => .error "transport error"
  | .success status body =>
    if responseOk status then .ok (extract body)
    else .error "HTTP error"

/-- Is an `Except` result an error? -/
def isErr {ε α : Type} : Except ε α → Bool
  | .error _ => true
  | .ok _ => false

/-- C9 counterexample: the part_001 `fetchHeadlines` does not fail with a
`FetchError` — on a 500 response it still returns whatever headlines the
body text yields, and on a transport error it silently returns the empty
headline list instead of raising. -/
theorem fetchHeadlines_counterexample :
    fetchHeadlinesPart001 (fun _ => ["X wins"])
      (FetchResponse.success 500 "body") = ["X wins"] ∧
    fetchHeadlinesPart001 (fun _ => ["X wins"])
      FetchResponse.transportError = [] :=
  ⟨rfl, rfl⟩

/-- C9 (amended): the fetch-google-corp-news `fetchHeadlines` fails on a
transport error and on every non-2xx HTTP response; the part_001
`fetchHeadlines` instead never raises — it returns the empty headline list on
a transport error and ignores the HTTP status — and its caller treats an
empty headline list as "no update possible", leaving the entity's store
entry unchanged. -/
theorem fetchHeadlines_error_contract {V : Type}
    (extract : String → List String) (status : Nat) (body : String)
    (existing : Store V) (tracked : List String)
    (headlines : String → List String) (analyze : String → Option V)
    (k : String) :
    isErr (fetchHeadlinesCorpNews extract FetchResponse.transportError) =
      true ∧
    (responseOk status = false →
      isErr (fetchHeadlinesCorpNews extract
        (FetchResponse.success status body)) = true) ∧
    fetchHeadlinesPart001 extract FetchResponse.transportError = [] ∧
    (k ∈ tracked → headlines k = [] →
      (runPart001 existing tracked headlines analyze).1 k = existing k) := by
  refine ⟨rfl, fun h => ?_, rfl, fun hk hnil => ?_⟩
  · simp [fetchHeadlinesCorpNews, h, isErr]
  · show mergeStore existing (updateOf headlines analyze) tracked k =
      existing k
    rw [mergeStore, pruneStore_of_mem _ _ _ hk]
    exact runLoop_of_update_none _ _ _ _ (by simp [updateOf, hnil])

/-- Witness for C9 (amended): a 500 response makes the corp-news fetch fail,
and a tracked entity whose feed yields no headlines keeps its prior store
entry in the part_001 run. -/
theorem fetchHeadlines_error_contract_witness :
    isErr (fetchHeadlinesCorpNews (fun _ => [])
      (FetchResponse.success 500 "")) = true ∧
    (runPart001 exStoreAB ["A"] (fun _ => [])
      (fun _ => none)).1 "A" = exStoreAB "A" :=
  ⟨(fetchHeadlines_error_contract (fun _ => []) 500 "" exStoreAB ["A"]
      (fun _ => []) (fun _ => none) "A").2.1 (by decide),
   (fetchHeadlines_error_contract (fun _ => []) 500 "" exStoreAB ["A"]
      (fun _ => []) (fun _ => none) "A").2.2.2 (by decide) rfl⟩

/-! ## Pipeline-supplied countryCode/updatedAt (`finalData`, part_001 lines
267-271 and analyze-mood.cjs lines 156-160) -/

/-- A model output as far as the pipeline-controlled fields are concerned:
the model may or may not supply its own `countryCode` and `updatedAt`
properties; `payload` stands for all its other fields. -/
structure AiOut (V : Type) where
  countryCode : Option String
  updatedAt : Option String
  payload : V
deriving DecidableEq

/-- The persisted per-entity record: `countryCode` and `updatedAt` are always
present in `finalData`. -/
structure FinalRec (V : Type) where
  countryCode : String
  updatedAt : String
  payload : V
deriving DecidableEq

/-- part_001 `finalData`: the spread of `aiResult` comes first and the
explicit `countryCode: code, updatedAt: updatedAtISO` properties after it, so
the pipeline-supplied values always win. -/
def mkFinalPart001 {V : Type} (code updatedAtISO : String) (ai : AiOut V) :
    FinalRec V :=
  { countryCode := code, updatedAt := updatedAtISO, payload := ai.payload }

/-- analyze-mood.cjs `finalData`: the explicit properties come first and the
spread of `aiResult` after them, so a model-supplied `countryCode` or
`updatedAt` overrides the pipeline values; the pipeline values only fill in
when the model output lacks the property. -/
def mkFinalAnalyzeMood {V : Type} (code updatedAtISO : String)
    (ai : AiOut V) : FinalRec V :=
  { countryCode := ai.countryCode.getD code,
    updatedAt := ai.updatedAt.getD updatedAtISO,
    payload := ai.payload }

/-- C10 counterexample: in the analyze-mood variant, a model output that
carries its own `countryCode` and `updatedAt` overrides the pipeline-supplied
tracked id and slot-aligned timestamp in the persisted record. -/
theorem finalData_precedence_counterexample :
    (mkFinalAnalyzeMood "KR" "2026-02-25T10:00:00.000Z"
      { countryCode := some "XX",
        updatedAt := some "1999-01-01T00:00:00.000Z",
        payload := (0 : Nat) }).countryCode = "XX" ∧
    (mkFinalAnalyzeMood "KR" "2026-02-25T10:00:00.000Z"
      { countryCode := some "XX",
        updatedAt := some "1999-01-01T00:00:00.000Z",
        payload := (0 : Nat) }).updatedAt = "1999-01-01T00:00:00.000Z" :=
  ⟨rfl, rfl⟩

/-- C10 (amended): in the part_001 variant the persisted record's
`countryCode` always equals the tracked entity's configured id and its
`updatedAt` always equals the run's slot-aligned timestamp, regardless of
what the model output carries; in the analyze-mood variant this holds only
when the model output does not itself carry the property. -/
theorem finalData_precedence {V : Type} (code updatedAtISO : String)
    (ai : AiOut V) :
    (mkFinalPart001 code updatedAtISO ai).countryCode = code ∧
    (mkFinalPart001 code updatedAtISO ai).updatedAt = updatedAtISO ∧
    (ai.countryCode = none →
      (mkFinalAnalyzeMood code updatedAtISO ai).countryCode = code) ∧
    (ai.updatedAt = none →
      (mkFinalAnalyzeMood code updatedAtISO ai).updatedAt = updatedAtISO) := by
  refine ⟨rfl, rfl, fun h => ?_, fun h => ?_⟩ <;>
    simp [mkFinalAnalyzeMood, h]

/-- Witness for C10 (amended) at a model output carrying neither field. -/
theorem finalData_precedence_witness :
    (mkFinalPart001 "KR" "2026-02-25T10:00:00.000Z"
      { countryCode := some "XX", updatedAt := some "Y",
        payload := (0 : Nat) }).countryCode = "KR" ∧
    (mkFinalAnalyzeMood "KR" "2026-02-25T10:00:00.000Z"
      { countryCode := none, updatedAt := none,
        payload := (0 : Nat) }).countryCode = "KR" :=
  ⟨(finalData_precedence "KR" "2026-02-25T10:00:00.000Z"
      { countryCode := some "XX", updatedAt := some "Y",
        payload := (0 : Nat) }).1,
   (finalData_precedence "KR" "2026-02-25T10:00:00.000Z"
      { countryCode := none, updatedAt := none,
        payload := (0 : Nat) }).2.2.1 rfl⟩

/-! ## Response normalization (`analyzeWithGemini`, part_001 lines 141-181)
and the frontend `normalizeCountryData` (App.tsx lines 37-83) -/

/-- One per-language translation block of the parsed model output. -/
structure TransBlock where
  word : String
  subTopics : List String
  reason : String
  country : String
deriving DecidableEq

/-- The `translations` object of the parsed model output; each supported
language's block may be absent. -/
structure Translations where
  en : Option TransBlock
  ko : Option TransBlock
  zh : Option TransBlock
deriving DecidableEq

/-- The object produced by `JSON.parse` on the model's text, restricted to
the fields the normalization code reads or writes; every property may be
absent.  `keyword`, `hashtags` and `explanation` are the legacy-shape
fallbacks. -/
structure ParsedMood where
  country : Option String
  countryCode : Option String
  mood : Option String
  word : Option String
  keyword : Option String
  subTopics : Option (List String)
  hashtags : Option (List String)
  reason : Option String
  explanation : Option String
  bpm : Option Int
  color : Option String
  translations : Option Translations
deriving DecidableEq

/-- JavaScript falsiness of a possibly-absent string property: `!x` is true
when the property is absent or the empty string. -/
def strFalsy : Option String → Bool
  | none => true
  | some s => s.isEmpty

/-- JavaScript `x || b` for a possibly-absent string property `x`. -/
def strOr (a : Option String) (b : String) : String :=
  match a with
  | none => b
  | some s => if s.isEmpty then b else s

/-- The default `en` block (part_001 lines 147-154): built from
`parsed.word || parsed.keyword || 'Unknown'`,
`parsed.subTopics || parsed.hashtags || []` and
`parsed.reason || parsed.explanation || ''`. -/
def defaultEn (countryName : String) (p : ParsedMood) : TransBlock :=
  { word := strOr p.word (strOr p.keyword "Unknown"),
    subTopics := p.subTopics.getD (p.hashtags.getD []),
    reason := strOr p.reason (strOr p.explanation ""),
    country := countryName }

/-- The default `ko` block (part_001 lines 155-162): unlike `en`, it has no
legacy-field fallbacks. -/
def defaultKo (countryName : String) (p : ParsedMood) : TransBlock :=
  { word := strOr p.word "알 수 없음",
    subTopics := p.subTopics.getD [],
    reason := strOr p.reason "",
    country := countryName }

/-- The default `zh` block (part_001 lines 163-170). -/
def defaultZh (countryName : String) (p : ParsedMood) : TransBlock :=
  { word := strOr p.word "未知",
    subTopics := p.subTopics.getD [],
    reason := strOr p.reason "",
    country := countryName }

/-- The translations repair of part_001 lines 144-171: when
`parsed.translations` or any of its `ko`/`en`/`zh` blocks is missing, create
the missing blocks from the top-level (or legacy) fields; otherwise leave the
object untouched. -/
def normalizeTranslations (countryName : String) (p : ParsedMood) :
    Translations :=
  if p.translations.isSome &&
      (p.translations.getD ⟨none, none, none⟩).ko.isSome &&
      (p.translations.getD ⟨none, none, none⟩).en.isSome &&
      (p.translations.getD ⟨none, none, none⟩).zh.isSome then
    p.translations.getD ⟨none, none, none⟩
  else
    { en := some ((p.translations.getD ⟨none, none, none⟩).en.getD
        (defaultEn countryName p)),
      ko := some ((p.translations.getD ⟨none, none, none⟩).ko.getD
        (defaultKo countryName p)),
      zh := some ((p.translations.getD ⟨none, none, none⟩).zh.getD
        (defaultZh countryName p)) }

/-- The whole normalization of part_001 lines 144-180: repair `translations`,
then fill each missing/falsy top-level field (`country`, `countryCode`,
`mood` — defaulting to `'Calm'` —, `word`, `subTopics`, `reason`) from the
legacy fields or fixed defaults.  Note that `bpm` and `color` are NOT
touched, and a present non-empty `mood` string is kept as-is whatever its
value. -/
def normalizeMood (countryName countryCode : String) (p : ParsedMood) :
    ParsedMood :=
  { p with
    translations := some (normalizeTranslations countryName p),
    country := if strFalsy p.country then some countryName else p.country,
    countryCode :=
      if strFalsy p.countryCode then some countryCode else p.countryCode,
    mood := if strFalsy p.mood then some "Calm" else p.mood,
    word :=
      if strFalsy p.word then some (strOr p.keyword "Unknown") else p.word,
    subTopics :=
      if p.subTopics.isNone then some (p.hashtags.getD []) else p.subTopics,
    reason :=
      if strFalsy p.reason then some (strOr p.explanation "") else p.reason }

/-- The five mood values the schema enumerates. -/
def moodValues : List String :=
  ["Panic", "Calm", "Greed", "Innovation", "Conflict"]

/-- `h.replace(/^#+/, '')` from App.tsx: drop the leading run of `#`
characters. -/
def stripLeadingHashes (s : String) : String :=
  String.mk (s.data.dropWhile (fun c => c = '#'))

/-- The `subTopics` field of the record produced by the frontend
`normalizeCountryData` (App.tsx lines 38-58): a modern-shaped record
(truthy `word`, present `subTopics` and `translations`) is returned
unchanged, while a legacy-shaped record gets
`hashtags.map(h => h.replace(/^#+/, ''))` with
`hashtags = raw.hashtags || raw.subTopics || []`. -/
def frontendSubTopics (raw : ParsedMood) : List String :=
  if !(strFalsy raw.word) && raw.subTopics.isSome &&
      raw.translations.isSome then
    raw.subTopics.getD []
  else
    (raw.hashtags.getD (raw.subTopics.getD [])).map stripLeadingHashes

theorem strFalsy_false_isSome {a : Option String} (h : strFalsy a = false) :
    a.isSome = true := by
  cases a with
  | none => simp [strFalsy] at h
  | some s => rfl

theorem normalizeTranslations_all_some (countryName : String)
    (p : ParsedMood) :
    (normalizeTranslations countryName p).en.isSome = true ∧
    (normalizeTranslations countryName p).ko.isSome = true ∧
    (normalizeTranslations countryName p).zh.isSome = true := by
  rw [normalizeTranslations]
  split
  · next h =>
    simp only [Bool.and_eq_true] at h
    exact ⟨h.1.2, h.1.1.2, h.2⟩
  · exact ⟨rfl, rfl, rfl⟩

theorem ite_strFalsy_isSome (a : Option String) (b : String) :
    (if strFalsy a then some b else a).isSome = true := by
  cases hx : strFalsy a
  · simpa [hx] using strFalsy_false_isSome hx
  · simp [hx]

/-- A parseable model output whose `mood` is none of the five enumerated
values and whose `bpm` is far out of the declared [40, 180] range. -/
def badMoodOutput : ParsedMood :=
  { country := some "United States", countryCode := some "US",
    mood := some "Excited", word := some "Tariffs", keyword := none,
    subTopics := some ["Trade"], hashtags := none, reason := some "r",
    explanation := none, bpm := some 999, color := none,
    translations := some
      ⟨some ⟨"Tariffs", ["Trade"], "r", "United States"⟩,
       some ⟨"관세", ["무역"], "이유", "미국"⟩,
       some ⟨"关税", ["贸易"], "原因", "美国"⟩⟩ }

/-- C4 counterexample: normalization keeps an unrecognized `mood` string
verbatim (it is only defaulted when absent or empty, never remapped into the
five-element set) and passes `bpm` through without any range check, so the
normalized record is NOT always within the declared domains. -/
theorem normalize_domain_counterexample :
    (normalizeMood "United States" "US" badMoodOutput).mood =
      some "Excited" ∧
    "Excited" ∉ moodValues ∧
    (normalizeMood "United States" "US" badMoodOutput).bpm = some 999 ∧
    ¬((40 : Int) ≤ 999 ∧ (999 : Int) ≤ 180) := by
  exact ⟨by decide, by decide, by decide, by decide⟩

/-- C4 (amended): for every parsed model output, normalization yields a
record in which `translations` has a block for every supported language and
`country`, `countryCode`, `mood`, `word`, `subTopics` and `reason` are all
present, with an absent or empty `mood` defaulted to `"Calm"`; however the
intensity (`bpm`) is passed through unvalidated (possibly absent or out of
[40, 180]) and a present unrecognized `mood` string is retained rather than
mapped into the five-element set. -/
theorem normalizeMood_fills_required_fields
    (countryName countryCode : String) (p : ParsedMood) :
    (normalizeMood countryName countryCode p).translations =
      some (normalizeTranslations countryName p) ∧
    (normalizeTranslations countryName p).en.isSome = true ∧
    (normalizeTranslations countryName p).ko.isSome = true ∧
    (normalizeTranslations countryName p).zh.isSome = true ∧
    (normalizeMood countryName countryCode p).country.isSome = true ∧
    (normalizeMood countryName countryCode p).countryCode.isSome = true ∧
    (normalizeMood countryName countryCode p).mood.isSome = true ∧
    (normalizeMood countryName countryCode p).word.isSome = true ∧
    (normalizeMood countryName countryCode p).subTopics.isSome = true ∧
    (normalizeMood countryName countryCode p).reason.isSome = true ∧
    (strFalsy p.mood = true →
      (normalizeMood countryName countryCode p).mood = some "Calm") ∧
    (normalizeMood countryName countryCode p).bpm = p.bpm := by
  obtain ⟨he, hk, hz⟩ := normalizeTranslations_all_some countryName p
  refine ⟨rfl, he, hk, hz, ?_, ?_, ?_, ?_, ?_, ?_, fun h => ?_, rfl⟩
  · exact ite_strFalsy_isSome p.country countryName
  · exact ite_strFalsy_isSome p.countryCode countryCode
  · exact ite_strFalsy_isSome p.mood "Calm"
  · exact ite_strFalsy_isSome p.word (strOr p.keyword "Unknown")
  · show (if p.subTopics.isNone then some (p.hashtags.getD [])
      else p.subTopics).isSome = true
    cases p.subTopics <;> simp
  · exact ite_strFalsy_isSome p.reason (strOr p.explanation "")
  · show (if strFalsy p.mood then some "Calm" else p.mood) = some "Calm"
    simp [h]

/-- A sparse legacy-shaped model output: only the legacy fields are
present. -/
def sparseModelOutput : ParsedMood :=
  { country := none, countryCode := none, mood := none, word := none,
    keyword := some "Semiconductors", subTopics := none,
    hashtags := some ["#Samsung"], reason := none,
    explanation := some "old shape", bpm := none, color := none,
    translations := none }

/-- Witness for C4 (amended): normalizing the sparse legacy-shaped output
defaults the mood to Calm and produces a full translations object. -/
theorem normalizeMood_fills_required_fields_witness :
    (normalizeMood "South Korea" "KR" sparseModelOutput).mood =
      some "Calm" ∧
    (normalizeMood "South Korea" "KR" sparseModelOutput).translations =
      some (normalizeTranslations "South Korea" sparseModelOutput) :=
  ⟨(normalizeMood_fills_required_fields "South Korea" "KR"
      sparseModelOutput).2.2.2.2.2.2.2.2.2.2.1 (by decide),
   (normalizeMood_fills_required_fields "South Korea" "KR"
      sparseModelOutput).1⟩

/-- A parseable model output whose `subTopics` entries carry leading `#`
markers, exactly as the part_001 prompt requests from the model. -/
def hashModelOutput : ParsedMood :=
  { country := some "South Korea", countryCode := some "KR",
    mood := some "Calm", word := some "Semiconductors", keyword := none,
    subTopics := some ["#Samsung", "#InterestRate", "#Ukraine"],
    hashtags := none, reason := some "r", explanation := none,
    bpm := some 80, color := some "#FF4444",
    translations := some
      ⟨some ⟨"Semiconductors", ["#Samsung"], "r", "South Korea"⟩,
       some ⟨"반도체", ["#삼성"], "이유", "대한민국"⟩,
       some ⟨"半导体", ["#三星"], "原因", "韩国"⟩⟩ }

/-- C8 counterexample: the part_001 normalization leaves present `subTopics`
entries byte-for-byte unchanged, so entries beginning with `#` keep their
leading marker in the normalized record. -/
theorem subTopics_hash_counterexample :
    (normalizeMood "South Korea" "KR" hashModelOutput).subTopics =
      some ["#Samsung", "#InterestRate", "#Ukraine"] ∧
    "#Samsung".data.head? = some '#' := by
  exact ⟨by decide, by decide⟩

theorem stripLeadingHashes_no_hash (u : String) (c : Char)
    (h : (stripLeadingHashes u).data.head? = some c) : c ≠ '#' := by
  have h2 := List.head?_dropWhile_not (fun x => x = '#') u.data
  have hd : (stripLeadingHashes u).data =
      u.data.dropWhile (fun x => x = '#') := rfl
  rw [hd] at h
  rw [h] at h2
  simpa using h2

/-- C8 (amended): the backend normalization of part_001 does not strip
leading `#` markers — a present `subTopics` list passes through unchanged;
the stripping happens only in the frontend `normalizeCountryData`, which
returns a modern-shaped record untouched and, for a legacy-shaped record,
maps the hash-stripping over the entries, after which no entry starts with
`#`. -/
theorem subTopics_hash_handling (countryName countryCode : String)
    (p : ParsedMood) (l : List String) (raw : ParsedMood) (t : String)
    (c : Char) :
    (p.subTopics = some l →
      (normalizeMood countryName countryCode p).subTopics = some l) ∧
    ((!(strFalsy raw.word) && raw.subTopics.isSome &&
        raw.translations.isSome) = false →
      t ∈ frontendSubTopics raw → t.data.head? = some c → c ≠ '#') ∧
    ((!(strFalsy raw.word) && raw.subTopics.isSome &&
        raw.translations.isSome) = true →
      frontendSubTopics raw = raw.subTopics.getD []) := by
  refine ⟨fun h => ?_, fun hcond ht hh => ?_, fun hcond => ?_⟩
  · show (if p.subTopics.isNone then some (p.hashtags.getD [])
      else p.subTopics) = some l
    simp [h]
  · rw [frontendSubTopics, if_neg (by simp [hcond])] at ht
    obtain ⟨u, _, rfl⟩ := List.mem_map.mp ht
    exact stripLeadingHashes_no_hash u c hh
  · rw [frontendSubTopics, if_pos (by simp [hcond])]

/-- A minimal modern-shaped output whose subTopics carry a marker. -/
def hashInput2 : ParsedMood :=
  { country := none, countryCode := none, mood := none, word := none,
    keyword := none, subTopics := some ["#A"], hashtags := none,
    reason := none, explanation := none, bpm := none, color := none,
    translations := none }

/-- A legacy-shaped raw record as the frontend receives it. -/
def legacyRawOutput : ParsedMood :=
  { country := none, countryCode := none, mood := none, word := none,
    keyword := some "Mood", subTopics := none, hashtags := some ["#tag1"],
    reason := none, explanation := some "e", bpm := some 80, color := none,
    translations := none }

/-- Witness for C8 (amended): a present subTopics list survives backend
normalization unchanged, and the frontend-stripped legacy entry "tag1" does
not start with a marker. -/
theorem subTopics_hash_handling_witness :
    (normalizeMood "X" "XX" hashInput2).subTopics = some ["#A"] ∧
    ('t' : Char) ≠ '#' :=
  ⟨(subTopics_hash_handling "X" "XX" hashInput2 ["#A"] legacyRawOutput
      "tag1" 't').1 (by decide),
   (subTopics_hash_handling "X" "XX" hashInput2 ["#A"] legacyRawOutput
      "tag1" 't').2.1 (by decide) (by decide) (by decide)⟩
